import Mathlib

/-!
Verification of the FlightTracker polling core against its specification.

The development shallowly embeds the two monitor classes of the repository:
`FlightMonitor` (flight_monitor.py) and `FlightMonitorAdvanced`
(flight_monitor_advanced.py).  Pure functions of the source become Lean
functions; the HTTP layer is abstracted as a script of fetch outcomes
supplied by the environment; wall-clock instants are integers counting
seconds on the Brasilia civil timeline (a fixed UTC-3 offset with no
daylight saving, so civil-time arithmetic is linear and exact).
-/

namespace FlightTracker

/-- Python in a displayed change record writes the old value as
`old_val or "N/A"`: both a missing value and the empty string render
as N/A, because the empty string is falsy in Python. -/
def pyOrNA : Option String → String
  | none => "N/A"
  | some s => if s = "" then "N/A" else s

/-- One fetched observation of the flight page, mirroring the dict built by
`_extract_flight_data`.  Every field starts as None; a transport failure
sets `error`, an unparseable payload sets `parse_error`, and a successful
parse fills the data fields and sets neither marker. -/
structure FlightData where
  timestamp : String := ""
  takeoff : Option String := none
  takeoff_scheduled : Option String := none
  landing : Option String := none
  landing_scheduled : Option String := none
  landing_type : Option String := none
  status : Option String := none
  origin : Option String := none
  destination : Option String := none
  aircraft : Option String := none
  flight_id : Option String := none
  error : Option String := none
  parse_error : Option String := none
  deriving Repr, DecidableEq

/-- Dictionary lookup `data.get(field)` restricted to the field names the
comparison loops of both monitors consult. -/
def FlightData.get (d : FlightData) : String → Option String
  | "takeoff" => d.takeoff
  | "takeoff_scheduled" => d.takeoff_scheduled
  | "landing" => d.landing
  | "landing_scheduled" => d.landing_scheduled
  | "status" => d.status
  | "origin" => d.origin
  | "destination" => d.destination
  | _ => none

/-- A change record of the basic monitor (`FlightMonitor._compare_data`):
field key, display name, displayed old value, new value. -/
structure ChangeB where
  field : String
  field_name : String
  old : String
  new : String
  deriving Repr, DecidableEq

/-- A change record of the advanced monitor
(`FlightMonitorAdvanced._compare_data`): as in the basic monitor plus a
wall-clock timestamp. -/
structure ChangeA where
  field : String
  field_name : String
  old : String
  new : String
  timestamp : String
  deriving Repr, DecidableEq

/-- One iteration of the comparison loop, basic variant: a change is
emitted iff the new value is present (not None) and differs from the old
value, mirroring `if old_val != new_val and new_val is not None`. -/
def emitB (field fname : String) (oldv newv : Option String) : List ChangeB :=
  match newv with
  | none => []
  | some s => if oldv = some s then [] else [⟨field, fname, pyOrNA oldv, s⟩]

/-- One iteration of the comparison loop, advanced variant: same condition
as the basic variant, with the current wall-clock string attached. -/
def emitA (field fname : String) (oldv newv : Option String) (now : String) : List ChangeA :=
  match newv with
  | none => []
  | some s => if oldv = some s then [] else [⟨field, fname, pyOrNA oldv, s, now⟩]

/-- The `fields_to_compare` literal of `FlightMonitorAdvanced._compare_data`. -/
def fieldsAdv : List (String × String) :=
  [("takeoff", "🛫 Takeoff"),
   ("takeoff_scheduled", "📅 Takeoff Programado"),
   ("landing", "🛬 Landing"),
   ("landing_scheduled", "📅 Landing Programado"),
   ("status", "📊 Status")]

/-- The `fields_to_compare` literal of `FlightMonitor._compare_data`. -/
def fieldsBasic : List (String × String) :=
  [("takeoff", "🛫 Takeoff"),
   ("takeoff_scheduled", "📅 Takeoff Programado"),
   ("landing", "🛬 Landing"),
   ("landing_scheduled", "📅 Landing Programado"),
   ("status", "📊 Status"),
   ("origin", "🏁 Origem"),
   ("destination", "🎯 Destino")]

/-- The comparison for-loop of the basic monitor: walk the field list in
order, appending the emitted change of each field. -/
def cmpFieldsB (o n : FlightData) : List (String × String) → List ChangeB
  | [] => []
  | (f, fname) :: rest => emitB f fname (o.get f) (n.get f) ++ cmpFieldsB o n rest

/-- The comparison for-loop of the advanced monitor. -/
def cmpFieldsA (o n : FlightData) (now : String) : List (String × String) → List ChangeA
  | [] => []
  | (f, fname) :: rest => emitA f fname (o.get f) (n.get f) now ++ cmpFieldsA o n now rest

/-- `FlightMonitor._compare_data`: returns the empty list when there is no
previous snapshot, otherwise compares the seven configured fields in
order. -/
def compare_data_basic (old : Option FlightData) (n : FlightData) : List ChangeB :=
  match old with
  | none => []
  | some o => cmpFieldsB o n fieldsBasic

/-- `FlightMonitorAdvanced._compare_data`: returns the empty list when
there is no previous snapshot, otherwise compares the five configured
fields in order, stamping each change with the current wall-clock
string. -/
def compare_data_adv (old : Option FlightData) (n : FlightData) (now : String) : List ChangeA :=
  match old with
  | none => []
  | some o => cmpFieldsA o n now fieldsAdv

/-! ## Wall-clock model

Instants are integers counting seconds on the Brasilia civil timeline.
BRASILIA_TZ is a fixed offset (UTC-3, no daylight saving), so the civil
timeline is linear: one day is exactly 86400 seconds and
`datetime.replace` is arithmetic on the second-of-day. -/

/-- Seconds in one civil day. -/
def secsPerDay : Int := 86400

/-- `now.replace(hour=h, minute=m, second=0, microsecond=0)`: keep the
civil date of `now`, set the time of day to h:m:00. -/
def replaceHM (now h m : Int) : Int :=
  secsPerDay * (now.fdiv secsPerDay) + 3600 * h + 60 * m

/-- `FlightMonitorAdvanced._parse_time` on an already-split HH:MM pair:
resolve the scheduled time against the current date, and advance it by one
day when the derived start instant lies more than 60 seconds in the past.
This helper is defined by the source but never invoked by the run path. -/
def parse_time (now h m minutes_before : Int) : Int :=
  let scheduled := replaceHM now h m
  let start_time := scheduled - 60 * minutes_before
  if start_time < now ∧ 60 < now - start_time then scheduled + secsPerDay
  else scheduled

/-- `s.split(sep)` on the character list of a string: maximal runs
between separator occurrences, keeping empty runs, never empty overall. -/
def splitChars (sep : Char) : List Char → List (List Char)
  | [] => [[]]
  | c :: cs =>
      if c = sep then [] :: splitChars sep cs
      else
        match splitChars sep cs with
        | [] => [[c]]
        | l :: ls => (c :: l) :: ls

/-- Python `str.split(sep)` for a one-character separator. -/
def pySplit (sep : Char) (s : String) : List String :=
  (splitChars sep s.toList).map String.mk

/-- Accumulating decimal parse: None as soon as a non-digit appears. -/
def digitsToNatAux : List Char → Nat → Option Nat
  | [], acc => some acc
  | c :: cs, acc =>
      if c.isDigit then digitsToNatAux cs (acc * 10 + (c.toNat - 48)) else none

/-- Python `int(s)` on a decimal string: an optional leading minus sign
followed by at least one digit; anything else raises ValueError. -/
def pyToInt (s : String) : Except String Int :=
  match s.toList with
  | [] => Except.error ("ValueError: invalid literal for int with base 10: " ++ s)
  | '-' :: cs =>
      match cs, digitsToNatAux cs 0 with
      | _ :: _, some n => Except.ok (-(n : Int))
      | _, _ => Except.error ("ValueError: invalid literal for int with base 10: " ++ s)
  | cs =>
      match digitsToNatAux cs 0 with
      | some n => Except.ok ((n : Int))
      | none => Except.error ("ValueError: invalid literal for int with base 10: " ++ s)

/-- Python `str.upper()` for the ASCII identifiers used here. -/
def pyUpper (s : String) : String := String.mk (s.toList.map Char.toUpper)

/-- `int(max_duration_hours * 3600)` on an exact rational number of hours:
scale the reduced fraction by 3600 and truncate toward zero (Int division
truncates toward zero, as Python int() does). -/
def hoursToSeconds (q : Rat) : Int := q.num * 3600 / q.den

/-- `hour, minute = map(int, time_str.split(':'))`: exactly two
colon-separated components, each a decimal integer; any other shape raises
ValueError. -/
def parseHM (s : String) : Except String (Int × Int) :=
  match pySplit ':' s with
  | [hs, ms] =>
      match pyToInt hs, pyToInt ms with
      | Except.ok h, Except.ok m => Except.ok (h, m)
      | Except.error e, _ => Except.error e
      | _, Except.error e => Except.error e
  | _ => Except.error ("ValueError: not exactly two values to unpack from " ++ s)

/-! ## Monitor configuration -/

/-- The state stored by `FlightMonitorAdvanced.__init__`.  The injected
stop-condition callable is abstracted to its presence flag; its per-tick
behaviour is supplied by the run script.  The constructor body performs
assignments only: it has no validation and no error path. -/
structure Monitor where
  callsign : String
  url : String
  scheduled_time : String
  minutes_before : Int
  check_interval : Int
  stop_on_change : Bool
  has_stop_condition : Bool
  max_duration_seconds : Int
  deriving Repr, DecidableEq

/-- `FlightMonitorAdvanced.__init__`: store the upper-cased callsign, the
derived URL and the raw configuration.  `max_duration_seconds` is
`int(max_duration_hours * 3600)`. -/
def init (callsign scheduled_time : String) (minutes_before check_interval : Int)
    (stop_on_change has_stop_condition : Bool) (max_duration_hours : Rat) : Monitor :=
  { callsign := pyUpper callsign
    url := "https://www.flightaware.com/live/flight/" ++ pyUpper callsign
    scheduled_time := scheduled_time
    minutes_before := minutes_before
    check_interval := check_interval
    stop_on_change := stop_on_change
    has_stop_condition := has_stop_condition
    max_duration_seconds := hoursToSeconds max_duration_hours }

/-! ## Waiting phase -/

/-- The countdown loop of `_wait_until_start`: one iteration per second
remaining, each ending in `time.sleep(1)`.  `intr = some k` means a
KeyboardInterrupt arrives during the sleep of iteration k (0-based); the
interrupt aborts the wait at that iteration.  Returns true when the
countdown completes, false when it was interrupted. -/
def waitCountdown : Nat → Option Nat → Bool
  | 0, _ => true
  | Nat.succ n, intr =>
      match intr with
      | some 0 => false
      | some (Nat.succ k) => waitCountdown n (some k)
      | none => waitCountdown n none

/-- `FlightMonitorAdvanced._wait_until_start`: re-parse the configured
HH:MM (a malformed string raises ValueError here, out of range values
raise inside `datetime.replace`), resolve it against the current date,
subtract the lead minutes, and either return immediately when the start
instant is not in the future, or run the interruptible countdown.
Note that this function never consults the roll-forward helper
`parse_time` and never checks the `is_running` flag. -/
def wait_until_start (mon : Monitor) (now : Int) (intr : Option Nat) :
    Except String Bool :=
  match parseHM mon.scheduled_time with
  | Except.error e => Except.error e
  | Except.ok (h, mi) =>
      if h < 0 ∨ 24 ≤ h ∨ mi < 0 ∨ 60 ≤ mi then
        Except.error "ValueError: hour or minute out of range"
      else if replaceHM now h mi - 60 * mon.minutes_before ≤ now then
        Except.ok true
      else
        Except.ok (waitCountdown (replaceHM now h mi - 60 * mon.minutes_before - now).toNat intr)

/-! ## Fetching -/

/-- Outcome of one call to the external page, as seen by
`_extract_flight_data`: a successful parse carrying the extracted fields,
a transport failure (`requests.RequestException`), or a payload whose
embedded JSON fails to parse. -/
inductive FetchOutcome where
  | ok (d : FlightData)
  | netError (e : String)
  | parseError (e : String)
  deriving Repr, DecidableEq

/-- `FlightMonitorAdvanced._extract_flight_data` with the HTTP transport
abstracted to a `FetchOutcome`.  All fields start as None with the current
wall-clock string; a transport failure sets only the `error` key, an
unparseable payload sets only the `parse_error` key, and a successful
parse fills the data fields and sets neither marker. -/
def extract_flight_data (o : FetchOutcome) (ts : String) : FlightData :=
  match o with
  | FetchOutcome.ok d => { d with timestamp := ts, error := none, parse_error := none }
  | FetchOutcome.netError e => { timestamp := ts, error := some e }
  | FetchOutcome.parseError e => { timestamp := ts, parse_error := some e }

/-! ## The polling loop -/

/-- Behaviour of the injected external stop condition on one tick: it
returns False, returns True, or raises. -/
inductive StopCondResult where
  | noStop
  | stops
  | raises (e : String)
  deriving Repr, DecidableEq

/-- Environment script for one iteration of the tick loop:
the stop-condition outcome, whether a KeyboardInterrupt arrives during the
inter-tick sleep, whether `stop()` was called during the sleep (observed
by the post-sleep `is_running` check), the fetch outcome, and the
wall-clock string of the tick. -/
structure TickInput where
  stopCond : StopCondResult := StopCondResult.noStop
  interrupted : Bool := false
  stopRequested : Bool := false
  fetch : FetchOutcome := FetchOutcome.ok {}
  ts : String := ""
  deriving Repr, DecidableEq

/-- The dict returned by `FlightMonitorAdvanced.start`.  The two early
returns of the source (cancelled before start, baseline fetch error) omit
the duration and check-count keys; the embedding fills them with the
numbers of seconds slept in the loop and of fetches performed, namely 0
and 0 for a cancelled run and 0 and 1 for a baseline failure. -/
structure RunResult where
  status : String
  data : Option FlightData
  changes : List ChangeA
  duration_seconds : Int
  total_checks : Nat
  deriving Repr, DecidableEq

/-- Mutable state of the tick loop: the last-known-good snapshot, the
accumulated change log, the check counter and the elapsed loop time. -/
structure LoopState where
  last_data : FlightData
  changes_log : List ChangeA
  check_count : Nat
  elapsed : Int
  deriving Repr, DecidableEq

/-- Assemble the final dict of `start` from the loop state. -/
def finishRun (reason : String) (s : LoopState) : RunResult :=
  { status := reason
    data := some s.last_data
    changes := s.changes_log
    duration_seconds := s.elapsed
    total_checks := s.check_count }

/-- The while-loop of `FlightMonitorAdvanced.start`, one `TickInput` per
iteration.  An exhausted script stands for an environment with no further
events, in which the loop runs idle to its deadline and exits the guard
with the initial reason, timeout.  Each iteration: check the deadline
guard; evaluate the external stop condition (a raise escapes the method);
sleep `min(check_interval, remaining)` seconds (a negative span raises
ValueError, an interrupt during the sleep is caught as user_interrupt, a
stop request is observed by the post-sleep check); fetch; on a snapshot
whose `error` key is set, continue without touching the stored state;
otherwise diff against the last-known-good snapshot, extend the change
log, stop when changes were found and stop_on_change is set, and store the
fetched snapshot as last-known-good in every successful-fetch path. -/
def runLoop (mon : Monitor) : List TickInput → LoopState → Except String RunResult
  | [], s => Except.ok (finishRun "timeout" s)
  | t :: rest, s =>
      if s.elapsed < mon.max_duration_seconds then
        match (if mon.has_stop_condition then t.stopCond else StopCondResult.noStop) with
        | StopCondResult.raises e => Except.error e
        | StopCondResult.stops => Except.ok (finishRun "condition_met" s)
        | StopCondResult.noStop =>
            if mon.max_duration_seconds - s.elapsed ≤ 0 then
              Except.ok (finishRun "timeout" s)
            else if min mon.check_interval (mon.max_duration_seconds - s.elapsed) < 0 then
              Except.error "ValueError: sleep length must be non-negative"
            else if t.interrupted then
              Except.ok (finishRun "user_interrupt"
                { s with elapsed := s.elapsed
                    + min mon.check_interval (mon.max_duration_seconds - s.elapsed) })
            else if t.stopRequested then
              Except.ok (finishRun "stopped"
                { s with elapsed := s.elapsed
                    + min mon.check_interval (mon.max_duration_seconds - s.elapsed) })
            else if (extract_flight_data t.fetch t.ts).error ≠ none then
              runLoop mon rest
                { s with check_count := s.check_count + 1
                         elapsed := s.elapsed
                           + min mon.check_interval (mon.max_duration_seconds - s.elapsed) }
            else if compare_data_adv (some s.last_data) (extract_flight_data t.fetch t.ts) t.ts ≠ []
                ∧ mon.stop_on_change then
              Except.ok (finishRun "change_detected"
                { last_data := extract_flight_data t.fetch t.ts
                  changes_log := s.changes_log
                    ++ compare_data_adv (some s.last_data) (extract_flight_data t.fetch t.ts) t.ts
                  check_count := s.check_count + 1
                  elapsed := s.elapsed
                    + min mon.check_interval (mon.max_duration_seconds - s.elapsed) })
            else
              runLoop mon rest
                { last_data := extract_flight_data t.fetch t.ts
                  changes_log := s.changes_log
                    ++ compare_data_adv (some s.last_data) (extract_flight_data t.fetch t.ts) t.ts
                  check_count := s.check_count + 1
                  elapsed := s.elapsed
                    + min mon.check_interval (mon.max_duration_seconds - s.elapsed) }
      else Except.ok (finishRun "timeout" s)

/-- The environment of one invocation of `start`: the wall clock at entry,
whether `stop()` was called during the waiting phase, an optional
interrupt during the countdown, the baseline fetch outcome and timestamp,
and the script of the tick loop. -/
structure RunEnv where
  now : Int := 0
  stopDuringWait : Bool := false
  interruptAt : Option Nat := none
  baselineFetch : FetchOutcome := FetchOutcome.ok {}
  baselineTs : String := ""
  ticks : List TickInput := []
  deriving Repr, DecidableEq

/-- `FlightMonitorAdvanced.start`: wait for the start instant (a parse
failure of the configured time escapes here), return the cancelled dict if
the countdown was interrupted; otherwise set `is_running` to True —
discarding any stop request made during the wait, which is why
`env.stopDuringWait` is not consulted — perform the baseline fetch,
return the error dict when the baseline snapshot carries the `error`
marker, and otherwise enter the tick loop with the baseline as
last-known-good snapshot. -/
def start (mon : Monitor) (env : RunEnv) : Except String RunResult :=
  match wait_until_start mon env.now env.interruptAt with
  | Except.error e => Except.error e
  | Except.ok false =>
      Except.ok { status := "cancelled", data := none, changes := []
                  duration_seconds := 0, total_checks := 0 }
  | Except.ok true =>
      if (extract_flight_data env.baselineFetch env.baselineTs).error ≠ none then
        Except.ok { status := "error"
                    data := some (extract_flight_data env.baselineFetch env.baselineTs)
                    changes := [], duration_seconds := 0, total_checks := 1 }
      else
        runLoop mon env.ticks
          { last_data := extract_flight_data env.baselineFetch env.baselineTs
            changes_log := [], check_count := 1, elapsed := 0 }

/-! ## The spec-level stop reasons -/

/-- The StopReason enumeration of the specification. -/
inductive SpecStopReason where
  | condition_met
  | change_detected
  | timeout
  | user_cancelled
  | error
  | cancelled_before_start
  deriving Repr, DecidableEq

/-- The abstraction from the status strings produced by the source to the
StopReason enumeration of the specification: `stopped` (a stop request
observed in the loop) and `user_interrupt` (an interrupt signal) both
denote user cancellation, and `cancelled` (the waiting phase was
interrupted) denotes cancellation before start. -/
def specReason : String → Option SpecStopReason
  | "condition_met" => some SpecStopReason.condition_met
  | "change_detected" => some SpecStopReason.change_detected
  | "timeout" => some SpecStopReason.timeout
  | "stopped" => some SpecStopReason.user_cancelled
  | "user_interrupt" => some SpecStopReason.user_cancelled
  | "error" => some SpecStopReason.error
  | "cancelled" => some SpecStopReason.cancelled_before_start
  | _ => none

/-! ## Projections used to compare the two detectors -/

/-- The (field, old, new) content of a basic change record. -/
def tripleB (c : ChangeB) : String × String × String := (c.field, c.old, c.new)

/-- The (field, old, new) content of an advanced change record. -/
def tripleA (c : ChangeA) : String × String × String := (c.field, c.old, c.new)

/-- The five field keys compared by both monitors. -/
def sharedFields : List String :=
  ["takeoff", "takeoff_scheduled", "landing", "landing_scheduled", "status"]

/-! ## Concrete inputs used to exercise the claims -/

/-- A standard monitor: flight PSCBJ scheduled 10:00, lead 15 min, tick
interval 30 s, stop on change, no external condition, 4 h budget. -/
def monStd : Monitor := init ("PSCBJ") ("10:00") 15 30 true false 4

/-- As `monStd` but with stop-on-change disabled. -/
def monNoSoc : Monitor := init ("PSCBJ") ("10:00") 15 30 false false 4

/-- As `monStd` but scheduled at 12:00, so that an 11:40 invocation waits. -/
def monWait : Monitor := init ("PSCBJ") ("12:00") 15 30 true false 4

/-- As `monStd` but with an external stop condition injected. -/
def monCond : Monitor := init ("PSCBJ") ("10:00") 15 30 true true 4

/-- Day 100 of the timeline at 12:00:00 civil time. -/
def now12 : Int := 100 * 86400 + 12 * 3600

/-- Day 100 of the timeline at 11:40:00 civil time. -/
def now1140 : Int := 100 * 86400 + 11 * 3600 + 40 * 60

/-- Script of spec section 8: baseline succeeds, ticks 2 and 3 fail,
tick 4 succeeds with a changed takeoff time. -/
def envC4 : RunEnv :=
  { now := now12
    baselineFetch := FetchOutcome.ok { takeoff := some ("10:00") }
    baselineTs := "12:00:00"
    ticks := [ { fetch := FetchOutcome.netError ("connection reset"), ts := "12:00:30" },
               { fetch := FetchOutcome.netError ("connection reset"), ts := "12:01:00" },
               { fetch := FetchOutcome.ok { takeoff := some ("10:05") }, ts := "12:01:30" } ] }

/-- Script of spec section 8: the landing field changes from null to
14:32 on tick 3. -/
def envC6 : RunEnv :=
  { now := now12
    baselineFetch := FetchOutcome.ok {}
    baselineTs := "12:00:00"
    ticks := [ { fetch := FetchOutcome.ok {}, ts := "12:00:30" },
               { fetch := FetchOutcome.ok { landing := some ("14:32") }, ts := "12:01:00" } ] }

/-- Script with an unparseable payload on tick 2 and nothing after it. -/
def envC7a : RunEnv :=
  { now := now12
    baselineFetch := FetchOutcome.ok { takeoff := some ("10:00") }
    baselineTs := "12:00:00"
    ticks := [ { fetch := FetchOutcome.parseError ("bad json"), ts := "12:00:30" } ] }

/-- Script with an unparseable payload on tick 2 followed by a tick 3
whose data is identical to the baseline. -/
def envC7b : RunEnv :=
  { now := now12
    baselineFetch := FetchOutcome.ok { takeoff := some ("10:00") }
    baselineTs := "12:00:00"
    ticks := [ { fetch := FetchOutcome.parseError ("bad json"), ts := "12:00:30" },
               { fetch := FetchOutcome.ok { takeoff := some ("10:00") }, ts := "12:01:00" } ] }

/-- A stop request arrives during the waiting phase; afterwards the source
changes the landing field on the first loop tick. -/
def envStopWaitChange : RunEnv :=
  { now := now1140
    stopDuringWait := true
    baselineFetch := FetchOutcome.ok {}
    baselineTs := "11:45:00"
    ticks := [ { fetch := FetchOutcome.ok { landing := some ("14:32") }, ts := "11:45:30" } ] }

/-- A stop request arrives during the waiting phase and nothing else ever
happens. -/
def envStopWaitIdle : RunEnv :=
  { now := now1140
    stopDuringWait := true
    baselineFetch := FetchOutcome.ok {}
    baselineTs := "11:45:00"
    ticks := [] }

/-- An invocation at 11:40 whose countdown to 11:45 is interrupted five
seconds in. -/
def envInterrupted : RunEnv :=
  { now := now1140
    interruptAt := some 5
    baselineFetch := FetchOutcome.ok {}
    baselineTs := "11:45:00"
    ticks := [] }

/-- A loop state as produced by a successful baseline fetch of an empty
snapshot. -/
def st0 : LoopState :=
  { last_data := {}, changes_log := [], check_count := 1, elapsed := 0 }

/-- A tick during whose sleep a KeyboardInterrupt arrives. -/
def tickIntr : TickInput := { interrupted := true, ts := "12:00:30" }

/-- A tick during whose sleep a stop request arrives. -/
def tickStop : TickInput := { stopRequested := true, ts := "12:00:30" }

/-- A monitor whose configured scheduled time is not a valid HH:MM string. -/
def monBanana : Monitor := init ("PSCBJ") ("banana") 15 30 true false 4

/-- An invocation whose baseline fetch fails with a transport error. -/
def envBaselineErr : RunEnv :=
  { now := now12
    baselineFetch := FetchOutcome.netError ("boom")
    baselineTs := "12:00:00" }

/-- A tick whose fetch fails with a transport error. -/
def tickNetErr : TickInput := { fetch := FetchOutcome.netError ("boom"), ts := "12:00:30" }

/-- A tick whose fetch returns an unparseable payload. -/
def tickParse : TickInput := { fetch := FetchOutcome.parseError ("bad"), ts := "12:00:30" }

/-- A tick whose fetch observes the landing time 14:32. -/
def tickLand : TickInput :=
  { fetch := FetchOutcome.ok { landing := some ("14:32") }, ts := "12:00:30" }

/-- A tick on which the injected external stop condition raises. -/
def tickRaise : TickInput := { stopCond := StopCondResult.raises ("boom") }

/-! ## Change-detector lemmas -/

theorem cmpFieldsB_append (o n : FlightData) (l1 l2 : List (String × String)) :
    cmpFieldsB o n (l1 ++ l2) = cmpFieldsB o n l1 ++ cmpFieldsB o n l2 := by
  induction l1 with
  | nil => rfl
  | cons p rest ih =>
      obtain ⟨f, fname⟩ := p
      simp [cmpFieldsB, ih]

theorem cmpFieldsA_fields (o n : FlightData) (ts : String) :
    ∀ fs : List (String × String),
      (cmpFieldsA o n ts fs).map ChangeA.field
        = (fs.map Prod.fst).filter (fun f => decide (n.get f ≠ none ∧ o.get f ≠ n.get f)) := by
  intro fs
  induction fs with
  | nil => rfl
  | cons p rest ih =>
      obtain ⟨f, fname⟩ := p
      simp only [cmpFieldsA, List.map_append, List.map_cons, List.filter_cons, ih]
      cases hn : n.get f with
      | none => simp [emitA, hn]
      | some s =>
          by_cases ho : o.get f = some s
          · simp [emitA, hn, ho]
          · simp [emitA, hn, ho, Ne.symm ho]

theorem cmpFieldsB_fields (o n : FlightData) :
    ∀ fs : List (String × String),
      (cmpFieldsB o n fs).map ChangeB.field
        = (fs.map Prod.fst).filter (fun f => decide (n.get f ≠ none ∧ o.get f ≠ n.get f)) := by
  intro fs
  induction fs with
  | nil => rfl
  | cons p rest ih =>
      obtain ⟨f, fname⟩ := p
      simp only [cmpFieldsB, List.map_append, List.map_cons, List.filter_cons, ih]
      cases hn : n.get f with
      | none => simp [emitB, hn]
      | some s =>
          by_cases ho : o.get f = some s
          · simp [emitB, hn, ho]
          · simp [emitB, hn, ho, Ne.symm ho]

theorem cmpFieldsA_mem (o n : FlightData) (ts : String) :
    ∀ fs : List (String × String), ∀ c ∈ cmpFieldsA o n ts fs,
      c.old = pyOrNA (o.get c.field) ∧ n.get c.field = some c.new ∧ c.timestamp = ts := by
  intro fs
  induction fs with
  | nil => intro c hc; cases hc
  | cons p rest ih =>
      obtain ⟨f, fname⟩ := p
      intro c hc
      simp only [cmpFieldsA, List.mem_append] at hc
      rcases hc with hc | hc
      · cases hn : n.get f with
        | none => rw [hn] at hc; cases hc
        | some s =>
            rw [hn] at hc
            simp only [emitA] at hc
            by_cases ho : o.get f = some s
            · rw [if_pos ho] at hc; cases hc
            · rw [if_neg ho, List.mem_singleton] at hc
              subst hc; exact ⟨rfl, hn, rfl⟩
      · exact ih c hc

theorem cmpFieldsB_mem (o n : FlightData) :
    ∀ fs : List (String × String), ∀ c ∈ cmpFieldsB o n fs,
      c.old = pyOrNA (o.get c.field) ∧ n.get c.field = some c.new := by
  intro fs
  induction fs with
  | nil => intro c hc; cases hc
  | cons p rest ih =>
      obtain ⟨f, fname⟩ := p
      intro c hc
      simp only [cmpFieldsB, List.mem_append] at hc
      rcases hc with hc | hc
      · cases hn : n.get f with
        | none => rw [hn] at hc; cases hc
        | some s =>
            rw [hn] at hc
            simp only [emitB] at hc
            by_cases ho : o.get f = some s
            · rw [if_pos ho] at hc; cases hc
            · rw [if_neg ho, List.mem_singleton] at hc
              subst hc; exact ⟨rfl, hn⟩
      · exact ih c hc

theorem cmpFields_triples (o n : FlightData) (ts : String) :
    ∀ fs : List (String × String),
      (cmpFieldsB o n fs).map tripleB = (cmpFieldsA o n ts fs).map tripleA := by
  intro fs
  induction fs with
  | nil => rfl
  | cons p rest ih =>
      obtain ⟨f, fname⟩ := p
      simp only [cmpFieldsB, cmpFieldsA, List.map_append, ih]
      cases hn : n.get f with
      | none => simp [emitB, emitA, hn]
      | some s =>
          by_cases ho : o.get f = some s
          · simp [emitB, emitA, hn, ho]
          · simp [emitB, emitA, hn, ho, tripleB, tripleA]

theorem cmpFieldsB_field_mem (o n : FlightData) :
    ∀ fs : List (String × String), ∀ c ∈ cmpFieldsB o n fs, c.field ∈ fs.map Prod.fst := by
  intro fs
  induction fs with
  | nil => intro c hc; cases hc
  | cons p rest ih =>
      obtain ⟨f, fname⟩ := p
      intro c hc
      simp only [cmpFieldsB, List.mem_append] at hc
      simp only [List.map_cons, List.mem_cons]
      rcases hc with hc | hc
      · left
        cases hn : n.get f with
        | none => rw [hn] at hc; cases hc
        | some s =>
            rw [hn] at hc
            simp only [emitB] at hc
            by_cases ho : o.get f = some s
            · rw [if_pos ho] at hc; cases hc
            · rw [if_neg ho, List.mem_singleton] at hc
              subst hc; rfl
      · exact Or.inr (ih c hc)

/-- Claim C5 (confirmed): the change detector returns the empty sequence
when the previous snapshot is null; otherwise, following the fixed field
order (takeoff, takeoff scheduled, landing, landing scheduled, status,
with origin and destination additionally compared by the non-advanced
variant), it emits exactly one change per field whose current value is
non-null and differs from the previous value and no other changes, the
old and new entries of each change being the displayed previous value and
the current value; consequently a current value of null never produces a
change, so a field transitioning from a known value to null never appears
in the output. -/
theorem C5_change_detector (o n : FlightData) (ts : String) :
    compare_data_adv none n ts = []
    ∧ compare_data_basic none n = []
    ∧ (compare_data_adv (some o) n ts).map ChangeA.field
        = (fieldsAdv.map Prod.fst).filter (fun f => decide (n.get f ≠ none ∧ o.get f ≠ n.get f))
    ∧ (compare_data_basic (some o) n).map ChangeB.field
        = (fieldsBasic.map Prod.fst).filter (fun f => decide (n.get f ≠ none ∧ o.get f ≠ n.get f))
    ∧ (∀ c ∈ compare_data_adv (some o) n ts,
        c.old = pyOrNA (o.get c.field) ∧ n.get c.field = some c.new ∧ n.get c.field ≠ none) := by
  refine ⟨rfl, rfl, cmpFieldsA_fields o n ts fieldsAdv, cmpFieldsB_fields o n fieldsBasic, ?_⟩
  intro c hc
  obtain ⟨h1, h2, _⟩ := cmpFieldsA_mem o n ts fieldsAdv c hc
  exact ⟨h1, h2, by rw [h2]; exact Option.some_ne_none _⟩

/-- Witness for C5 at a concrete pair of snapshots: the previous snapshot
knows takeoff 10:00 and status En Route, the current one changes takeoff
to 10:05, reports landing 14:32, and has lost the status (null): the
emitted changes are exactly takeoff and landing, in field order, and the
vanished status field does not appear. -/
theorem C5_witness :
    (compare_data_adv
        (some { takeoff := some ("10:00"), status := some ("En Route") })
        { takeoff := some ("10:05"), landing := some ("14:32") } ("13:00:00")).map ChangeA.field
      = ["takeoff", "landing"]
    ∧ ({ field := "takeoff", field_name := "🛫 Takeoff", old := "10:00", new := "10:05",
         timestamp := "13:00:00" } : ChangeA).old
        = pyOrNA (FlightData.get { takeoff := some ("10:00"), status := some ("En Route") } "takeoff") := by
  have h := C5_change_detector
    { takeoff := some ("10:00"), status := some ("En Route") }
    { takeoff := some ("10:05"), landing := some ("14:32") } ("13:00:00")
  refine ⟨?_, ?_⟩
  · rw [h.2.2.1]; rfl
  · have hm := h.2.2.2.2
      { field := "takeoff", field_name := "🛫 Takeoff", old := "10:00", new := "10:05",
        timestamp := "13:00:00" } (by decide)
    exact hm.1

/-- Claim C10 (confirmed): on every input, the basic detector restricted
to the five shared fields emits exactly the same ordered sequence of
(field, old, new) triples as the advanced detector; the two differ only in
that the basic variant additionally compares origin and destination (every
change of the basic variant outside the shared fields is an origin or
destination change) and the advanced variant attaches the current
timestamp to each change. -/
theorem C10_detector_refinement (old : Option FlightData) (n : FlightData) (ts : String) :
    ((compare_data_basic old n).filter (fun c => decide (c.field ∈ sharedFields))).map tripleB
        = (compare_data_adv old n ts).map tripleA
    ∧ (∀ c ∈ compare_data_basic old n, c.field ∉ sharedFields →
        c.field = "origin" ∨ c.field = "destination")
    ∧ (∀ c ∈ compare_data_adv old n ts, c.timestamp = ts) := by
  match old with
  | none => exact ⟨rfl, fun c hc => absurd hc (by simp [compare_data_basic]), fun c hc =>
      absurd hc (by simp [compare_data_adv])⟩
  | some o =>
      refine ⟨?_, ?_, ?_⟩
      · have hsplit : fieldsBasic = fieldsAdv ++ [("origin", "🏁 Origem"), ("destination", "🎯 Destino")] := rfl
        have h1 : ∀ c ∈ cmpFieldsB o n fieldsAdv, (fun c => decide (c.field ∈ sharedFields)) c = true := by
          intro c hc
          have := cmpFieldsB_field_mem o n fieldsAdv c hc
          simp only [decide_eq_true_eq]
          simpa [fieldsAdv, sharedFields] using this
        have h2 : ∀ c ∈ cmpFieldsB o n [("origin", "🏁 Origem"), ("destination", "🎯 Destino")],
            ¬ ((fun c => decide (c.field ∈ sharedFields)) c = true) := by
          intro c hc
          have := cmpFieldsB_field_mem o n _ c hc
          simp only [List.map_cons, List.map_nil, List.mem_cons, List.not_mem_nil, or_false] at this
          simp only [decide_eq_true_eq]
          rcases this with h | h <;> simp [h, sharedFields]
        show ((cmpFieldsB o n fieldsBasic).filter _).map tripleB = (cmpFieldsA o n ts fieldsAdv).map tripleA
        rw [hsplit, cmpFieldsB_append, List.filter_append,
          List.filter_eq_self.mpr h1, List.filter_eq_nil_iff.mpr h2, List.append_nil]
        exact cmpFields_triples o n ts fieldsAdv
      · intro c hc hns
        have := cmpFieldsB_field_mem o n fieldsBasic c hc
        simp only [fieldsBasic, List.map_cons, List.map_nil, List.mem_cons,
          List.not_mem_nil, or_false] at this
        rcases this with h | h | h | h | h | h | h
        all_goals first
          | (exact absurd (by rw [h]; decide) hns)
          | (exact Or.inl h)
          | (exact Or.inr h)
      · intro c hc
        exact (cmpFieldsA_mem o n ts fieldsAdv c hc).2.2

/-- Witness for C10 at a concrete pair of snapshots where takeoff, status
and origin all change: the restricted basic triples coincide with the
advanced triples, and the extra basic change is the origin one. -/
theorem C10_witness :
    ((compare_data_basic (some { takeoff := some ("10:00"), origin := some ("GRU") })
        { takeoff := some ("10:05"), origin := some ("CGH") }).filter
          (fun c => decide (c.field ∈ sharedFields))).map tripleB
      = (compare_data_adv (some { takeoff := some ("10:00"), origin := some ("GRU") })
          { takeoff := some ("10:05"), origin := some ("CGH") } ("14:00:00")).map tripleA
    ∧ (("origin" : String) = "origin" ∨ ("origin" : String) = "destination") := by
  have h := C10_detector_refinement
    (some { takeoff := some ("10:00"), origin := some ("GRU") })
    { takeoff := some ("10:05"), origin := some ("CGH") } ("14:00:00")
  refine ⟨h.1, ?_⟩
  have hmem : ({ field := "origin", field_name := "🏁 Origem", old := "GRU", new := "CGH" } : ChangeB)
      ∈ compare_data_basic (some { takeoff := some ("10:00"), origin := some ("GRU") })
        { takeoff := some ("10:05"), origin := some ("CGH") } := by decide
  exact h.2.1 _ hmem (by decide)

/-! ## Waiting-phase lemmas -/

theorem waitCountdown_none (n : Nat) : waitCountdown n none = true := by
  induction n with
  | zero => rfl
  | succ n ih => simpa [waitCountdown] using ih

theorem waitCountdown_interrupt (n k : Nat) :
    waitCountdown n (some k) = false ↔ k < n := by
  induction n generalizing k with
  | zero => simp [waitCountdown]
  | succ n ih =>
      cases k with
      | zero => simp [waitCountdown]
      | succ k => simp [waitCountdown, ih, Nat.succ_lt_succ_iff]

/-! ## Tick-loop step lemmas -/

theorem runLoop_netError_step (mon : Monitor) (t : TickInput) (rest : List TickInput)
    (s : LoopState) (e : String)
    (hg : s.elapsed < mon.max_duration_seconds)
    (hsc : (if mon.has_stop_condition then t.stopCond else StopCondResult.noStop)
             = StopCondResult.noStop)
    (hci : 0 ≤ mon.check_interval)
    (hint : t.interrupted = false)
    (hstop : t.stopRequested = false)
    (hf : t.fetch = FetchOutcome.netError e) :
    runLoop mon (t :: rest) s
      = runLoop mon rest
          { s with check_count := s.check_count + 1
                   elapsed := s.elapsed + min mon.check_interval
                     (mon.max_duration_seconds - s.elapsed) } := by
  rw [runLoop, if_pos hg, hsc]
  have h1 : ¬ (mon.max_duration_seconds - s.elapsed ≤ 0) := by omega
  rw [if_neg h1]
  have h2 : ¬ (min mon.check_interval (mon.max_duration_seconds - s.elapsed) < 0) := by omega
  rw [if_neg h2, hint, hstop]
  simp only [Bool.false_eq_true, if_false, hf, extract_flight_data]
  rw [if_pos (by simp)]

theorem runLoop_interrupt_step (mon : Monitor) (t : TickInput) (rest : List TickInput)
    (s : LoopState)
    (hg : s.elapsed < mon.max_duration_seconds)
    (hsc : (if mon.has_stop_condition then t.stopCond else StopCondResult.noStop)
             = StopCondResult.noStop)
    (hci : 0 ≤ mon.check_interval)
    (hint : t.interrupted = true) :
    runLoop mon (t :: rest) s
      = Except.ok (finishRun "user_interrupt"
          { s with elapsed := s.elapsed
              + min mon.check_interval (mon.max_duration_seconds - s.elapsed) }) := by
  rw [runLoop, if_pos hg, hsc]
  have h1 : ¬ (mon.max_duration_seconds - s.elapsed ≤ 0) := by omega
  rw [if_neg h1]
  have h2 : ¬ (min mon.check_interval (mon.max_duration_seconds - s.elapsed) < 0) := by omega
  rw [if_neg h2, hint]
  simp

theorem runLoop_stopRequested_step (mon : Monitor) (t : TickInput) (rest : List TickInput)
    (s : LoopState)
    (hg : s.elapsed < mon.max_duration_seconds)
    (hsc : (if mon.has_stop_condition then t.stopCond else StopCondResult.noStop)
             = StopCondResult.noStop)
    (hci : 0 ≤ mon.check_interval)
    (hint : t.interrupted = false)
    (hstop : t.stopRequested = true) :
    runLoop mon (t :: rest) s
      = Except.ok (finishRun "stopped"
          { s with elapsed := s.elapsed
              + min mon.check_interval (mon.max_duration_seconds - s.elapsed) }) := by
  rw [runLoop, if_pos hg, hsc]
  have h1 : ¬ (mon.max_duration_seconds - s.elapsed ≤ 0) := by omega
  rw [if_neg h1]
  have h2 : ¬ (min mon.check_interval (mon.max_duration_seconds - s.elapsed) < 0) := by omega
  rw [if_neg h2, hint, hstop]
  simp

theorem runLoop_raise_step (mon : Monitor) (t : TickInput) (rest : List TickInput)
    (s : LoopState) (e : String)
    (hg : s.elapsed < mon.max_duration_seconds)
    (hsc : (if mon.has_stop_condition then t.stopCond else StopCondResult.noStop)
             = StopCondResult.raises e) :
    runLoop mon (t :: rest) s = Except.error e := by
  rw [runLoop, if_pos hg, hsc]

theorem runLoop_ok_stop_step (mon : Monitor) (t : TickInput) (rest : List TickInput)
    (s : LoopState) (d : FlightData)
    (hg : s.elapsed < mon.max_duration_seconds)
    (hsc : (if mon.has_stop_condition then t.stopCond else StopCondResult.noStop)
             = StopCondResult.noStop)
    (hci : 0 ≤ mon.check_interval)
    (hint : t.interrupted = false)
    (hstop : t.stopRequested = false)
    (hf : t.fetch = FetchOutcome.ok d)
    (hch : compare_data_adv (some s.last_data)
             (extract_flight_data (FetchOutcome.ok d) t.ts) t.ts ≠ [])
    (hsoc : mon.stop_on_change = true) :
    runLoop mon (t :: rest) s
      = Except.ok (finishRun "change_detected"
          { last_data := extract_flight_data (FetchOutcome.ok d) t.ts
            changes_log := s.changes_log ++ compare_data_adv (some s.last_data)
              (extract_flight_data (FetchOutcome.ok d) t.ts) t.ts
            check_count := s.check_count + 1
            elapsed := s.elapsed + min mon.check_interval
              (mon.max_duration_seconds - s.elapsed) }) := by
  rw [runLoop, if_pos hg, hsc]
  have h1 : ¬ (mon.max_duration_seconds - s.elapsed ≤ 0) := by omega
  rw [if_neg h1]
  have h2 : ¬ (min mon.check_interval (mon.max_duration_seconds - s.elapsed) < 0) := by omega
  rw [if_neg h2, hint, hstop]
  simp only [Bool.false_eq_true, if_false, hf]
  rw [if_neg (by simp [extract_flight_data])]
  rw [if_pos ⟨hch, hsoc⟩]

theorem runLoop_ok_continue_step (mon : Monitor) (t : TickInput) (rest : List TickInput)
    (s : LoopState) (d : FlightData)
    (hg : s.elapsed < mon.max_duration_seconds)
    (hsc : (if mon.has_stop_condition then t.stopCond else StopCondResult.noStop)
             = StopCondResult.noStop)
    (hci : 0 ≤ mon.check_interval)
    (hint : t.interrupted = false)
    (hstop : t.stopRequested = false)
    (hf : t.fetch = FetchOutcome.ok d)
    (hnc : compare_data_adv (some s.last_data)
             (extract_flight_data (FetchOutcome.ok d) t.ts) t.ts = []
           ∨ mon.stop_on_change = false) :
    runLoop mon (t :: rest) s
      = runLoop mon rest
          { last_data := extract_flight_data (FetchOutcome.ok d) t.ts
            changes_log := s.changes_log ++ compare_data_adv (some s.last_data)
              (extract_flight_data (FetchOutcome.ok d) t.ts) t.ts
            check_count := s.check_count + 1
            elapsed := s.elapsed + min mon.check_interval
              (mon.max_duration_seconds - s.elapsed) } := by
  rw [runLoop, if_pos hg, hsc]
  have h1 : ¬ (mon.max_duration_seconds - s.elapsed ≤ 0) := by omega
  rw [if_neg h1]
  have h2 : ¬ (min mon.check_interval (mon.max_duration_seconds - s.elapsed) < 0) := by omega
  rw [if_neg h2, hint, hstop]
  simp only [Bool.false_eq_true, if_false, hf]
  rw [if_neg (by simp [extract_flight_data])]
  rw [if_neg (by
    rcases hnc with hnc | hnc
    · exact fun hx => hx.1 hnc
    · exact fun hx => by rw [hnc] at hx; exact Bool.false_ne_true hx.2)]

/-- Diffing any snapshot against the all-null snapshot produced by an
unparseable payload yields no changes: every compared field of the
current snapshot is None. -/
theorem compare_against_parse_snapshot (o : FlightData) (e ts ts2 : String) :
    compare_data_adv (some o) (extract_flight_data (FetchOutcome.parseError e) ts) ts2 = [] := rfl

theorem runLoop_parseError_step (mon : Monitor) (t : TickInput) (rest : List TickInput)
    (s : LoopState) (e : String)
    (hg : s.elapsed < mon.max_duration_seconds)
    (hsc : (if mon.has_stop_condition then t.stopCond else StopCondResult.noStop)
             = StopCondResult.noStop)
    (hci : 0 ≤ mon.check_interval)
    (hint : t.interrupted = false)
    (hstop : t.stopRequested = false)
    (hf : t.fetch = FetchOutcome.parseError e) :
    runLoop mon (t :: rest) s
      = runLoop mon rest
          { last_data := extract_flight_data (FetchOutcome.parseError e) t.ts
            changes_log := s.changes_log
            check_count := s.check_count + 1
            elapsed := s.elapsed + min mon.check_interval
              (mon.max_duration_seconds - s.elapsed) } := by
  rw [runLoop, if_pos hg, hsc]
  have h1 : ¬ (mon.max_duration_seconds - s.elapsed ≤ 0) := by omega
  rw [if_neg h1]
  have h2 : ¬ (min mon.check_interval (mon.max_duration_seconds - s.elapsed) < 0) := by omega
  rw [if_neg h2, hint, hstop]
  simp only [Bool.false_eq_true, if_false, hf]
  rw [if_neg (by simp [extract_flight_data])]
  rw [if_neg (by rw [compare_against_parse_snapshot]; exact fun hx => hx.1 rfl)]
  rw [compare_against_parse_snapshot, List.append_nil]

/-! ## Status totality lemmas -/

theorem runLoop_status (mon : Monitor) :
    ∀ (ticks : List TickInput) (s : LoopState) (r : RunResult),
      runLoop mon ticks s = Except.ok r → (specReason r.status).isSome := by
  intro ticks
  induction ticks with
  | nil =>
      intro s r h
      rw [runLoop] at h
      injection h with h
      subst h
      rfl
  | cons t rest ih =>
      intro s r h
      rw [runLoop] at h
      split at h
      · split at h
        · exact Except.noConfusion h
        · injection h with h; subst h; rfl
        · split at h
          · injection h with h; subst h; rfl
          · split at h
            · exact Except.noConfusion h
            · split at h
              · injection h with h; subst h; rfl
              · split at h
                · injection h with h; subst h; rfl
                · split at h
                  · exact ih _ r h
                  · split at h
                    · injection h with h; subst h; rfl
                    · exact ih _ r h
      · injection h with h; subst h; rfl

theorem start_status (mon : Monitor) (env : RunEnv) (r : RunResult)
    (h : start mon env = Except.ok r) : (specReason r.status).isSome := by
  rw [start] at h
  split at h
  · exact Except.noConfusion h
  · injection h with h; subst h; rfl
  · split at h
    · injection h with h; subst h; rfl
    · exact runLoop_status mon env.ticks _ r h

theorem runLoop_total (mon : Monitor) (hci : 0 ≤ mon.check_interval) :
    ∀ (ticks : List TickInput) (s : LoopState),
      (∀ t ∈ ticks, ∀ e,
        (if mon.has_stop_condition then t.stopCond else StopCondResult.noStop)
          ≠ StopCondResult.raises e) →
      ∃ r, runLoop mon ticks s = Except.ok r := by
  intro ticks
  induction ticks with
  | nil => intro s _; exact ⟨_, rfl⟩
  | cons t rest ih =>
      intro s hnr
      rw [runLoop]
      split
      · rename_i hg
        split
        · rename_i e heq
          exact absurd heq (hnr t (List.mem_cons_self t rest) e)
        · exact ⟨_, rfl⟩
        · have h2 : ¬ (min mon.check_interval (mon.max_duration_seconds - s.elapsed) < 0) := by
            omega
          rw [if_neg (show ¬ (mon.max_duration_seconds - s.elapsed ≤ 0) by omega), if_neg h2]
          split
          · exact ⟨_, rfl⟩
          · split
            · exact ⟨_, rfl⟩
            · split
              · exact ih _ (fun t2 ht2 => hnr t2 (List.mem_cons_of_mem _ ht2))
              · split
                · exact ⟨_, rfl⟩
                · exact ih _ (fun t2 ht2 => hnr t2 (List.mem_cons_of_mem _ ht2))
      · exact ⟨_, rfl⟩

/-! ## Claim theorems -/

/-- Claim C1 (corrected): the `parse_time` helper implements the
roll-forward rule — it advances the scheduled instant by one civil day
exactly when the derived start instant is more than 60 seconds in the past
— but the Scheduled to Waiting transition itself (`wait_until_start`)
never consults it: it starts immediately whenever the start instant is not
in the future, however stale, so a late start is always honored
immediately and the wait never targets a rolled-forward date. -/
theorem C1_start_time_policy (now h m mb : Int) (mon : Monitor) (intr : Option Nat)
    (hh mi : Int) :
    (parse_time now h m mb = replaceHM now h m + secsPerDay
      ∨ parse_time now h m mb = replaceHM now h m)
    ∧ (parse_time now h m mb = replaceHM now h m + secsPerDay
        ↔ (replaceHM now h m - 60 * mb < now ∧ 60 < now - (replaceHM now h m - 60 * mb)))
    ∧ (parseHM mon.scheduled_time = Except.ok (hh, mi) →
       0 ≤ hh → hh < 24 → 0 ≤ mi → mi < 60 →
       replaceHM now hh mi - 60 * mon.minutes_before ≤ now →
       wait_until_start mon now intr = Except.ok true) := by
  have hday : secsPerDay = 86400 := rfl
  refine ⟨?_, ?_, ?_⟩
  · simp only [parse_time]
    by_cases hc : replaceHM now h m - 60 * mb < now ∧ 60 < now - (replaceHM now h m - 60 * mb)
    · rw [if_pos hc]; exact Or.inl rfl
    · rw [if_neg hc]; exact Or.inr rfl
  · simp only [parse_time]
    by_cases hc : replaceHM now h m - 60 * mb < now ∧ 60 < now - (replaceHM now h m - 60 * mb)
    · rw [if_pos hc]; exact ⟨fun _ => hc, fun _ => rfl⟩
    · rw [if_neg hc]
      constructor
      · intro heq; exact absurd heq (by omega)
      · intro hcc; exact absurd hcc hc
  · intro hp h0 h1 h2 h3 hle
    simp only [wait_until_start, hp]
    rw [if_neg (show ¬ (hh < 0 ∨ 24 ≤ hh ∨ mi < 0 ∨ 60 ≤ mi) by omega), if_pos hle]

/-- Witness for C1 at 12:00 with the flight scheduled 10:00 and lead 15
minutes: the scheduler starts immediately, and `parse_time` took one of
its two documented values. -/
theorem C1_witness :
    wait_until_start monStd now12 none = Except.ok true
    ∧ (parse_time now12 10 0 15 = replaceHM now12 10 0 + secsPerDay
        ∨ parse_time now12 10 0 15 = replaceHM now12 10 0) := by
  have h := C1_start_time_policy now12 10 0 15 monStd none 10 0
  exact ⟨h.2.2 rfl (by decide) (by decide) (by decide) (by decide) (by decide), h.1⟩

/-- Counterexample to claim C1 as stated: at 12:00, scheduled 10:00 with
lead 15 minutes, the start instant 09:45 is more than one minute in the
past; the claim says the scheduler rolls the event forward one day and
waits for the rolled date, but the wait returns true immediately — even
with an interrupt pending for the very first countdown second, proving no
countdown ran — although the rolled-forward start instant lies strictly in
the future and a deferred wait would therefore not have begun. -/
theorem C1_counterexample :
    60 < now12 - (replaceHM now12 10 0 - 60 * 15)
    ∧ wait_until_start monStd now12 (some 0) = Except.ok true
    ∧ now12 < parse_time now12 10 0 15 - 60 * 15 :=
  ⟨by decide, rfl, by decide⟩

/-- Claim C2 (corrected): the status of every normally returned run is one
of the seven strings produced by the source, each of which maps to the six
StopReason values of the specification (stopped and user_interrupt both
denote user cancellation, cancelled denotes cancellation before start); an
interrupt signal during a tick sleep ends the run as user_interrupt and a
stop request observed by the post-sleep check ends it as stopped — both
user cancellation — but a stop request made during the waiting phase does
not terminate the run (see the counterexample). -/
theorem C2_stop_reason_enumeration (mon : Monitor) (env : RunEnv) (r : RunResult)
    (t : TickInput) (rest : List TickInput) (s : LoopState) :
    (start mon env = Except.ok r → (specReason r.status).isSome)
    ∧ specReason "stopped" = some SpecStopReason.user_cancelled
    ∧ specReason "user_interrupt" = some SpecStopReason.user_cancelled
    ∧ specReason "cancelled" = some SpecStopReason.cancelled_before_start
    ∧ (s.elapsed < mon.max_duration_seconds →
       (if mon.has_stop_condition then t.stopCond else StopCondResult.noStop)
         = StopCondResult.noStop →
       0 ≤ mon.check_interval → t.interrupted = true →
       runLoop mon (t :: rest) s = Except.ok (finishRun "user_interrupt"
         { s with elapsed := s.elapsed
             + min mon.check_interval (mon.max_duration_seconds - s.elapsed) }))
    ∧ (s.elapsed < mon.max_duration_seconds →
       (if mon.has_stop_condition then t.stopCond else StopCondResult.noStop)
         = StopCondResult.noStop →
       0 ≤ mon.check_interval → t.interrupted = false → t.stopRequested = true →
       runLoop mon (t :: rest) s = Except.ok (finishRun "stopped"
         { s with elapsed := s.elapsed
             + min mon.check_interval (mon.max_duration_seconds - s.elapsed) })) :=
  ⟨start_status mon env r, rfl, rfl, rfl,
    runLoop_interrupt_step mon t rest s,
    runLoop_stopRequested_step mon t rest s⟩

/-- Witness for C2: a concrete run ends with a mapped status, an
interrupted tick ends as user_interrupt, and a stop request observed after
the sleep ends as stopped. -/
theorem C2_witness :
    (specReason "change_detected").isSome = true
    ∧ runLoop monStd [tickIntr] st0
        = Except.ok (finishRun "user_interrupt"
            { st0 with
                elapsed := st0.elapsed
                  + min monStd.check_interval (monStd.max_duration_seconds - st0.elapsed) })
    ∧ runLoop monStd [tickStop] st0
        = Except.ok (finishRun "stopped"
            { st0 with
                elapsed := st0.elapsed
                  + min monStd.check_interval (monStd.max_duration_seconds - st0.elapsed) }) := by
  have h1 := C2_stop_reason_enumeration monStd envStopWaitChange
    { status := "change_detected"
      data := some { timestamp := "11:45:30", landing := some ("14:32") }
      changes := [ { field := "landing", field_name := "🛬 Landing", old := "N/A",
                     new := "14:32", timestamp := "11:45:30" } ]
      duration_seconds := 30, total_checks := 2 } tickIntr [] st0
  have h2 := C2_stop_reason_enumeration monStd envStopWaitChange
    { status := "change_detected"
      data := some { timestamp := "11:45:30", landing := some ("14:32") }
      changes := [ { field := "landing", field_name := "🛬 Landing", old := "N/A",
                     new := "14:32", timestamp := "11:45:30" } ]
      duration_seconds := 30, total_checks := 2 } tickStop [] st0
  exact ⟨h1.1 rfl,
    h1.2.2.2.2.1 (by decide) rfl (by decide) rfl,
    h2.2.2.2.2.2 (by decide) rfl (by decide) rfl rfl⟩

/-- Counterexample to claim C2 as stated: a run during whose waiting phase
an explicit stop request arrives is not terminated with user_cancelled —
the request is discarded when the loop starts, and the run ends with
change_detected. -/
theorem C2_counterexample :
    envStopWaitChange.stopDuringWait = true
    ∧ Except.map RunResult.status (start monWait envStopWaitChange)
        = Except.ok ("change_detected")
    ∧ specReason "change_detected" ≠ some SpecStopReason.user_cancelled :=
  ⟨rfl, rfl, by decide⟩

/-- Claim C3 (corrected): a stop request made while the monitor is in the
waiting phase has no effect on the run at all — `start` overwrites the
running flag after the wait, so the result is identical with and without
the request and the baseline fetch still happens; only a KeyboardInterrupt
cancels the wait: the countdown (which re-checks once per one-second
sleep) aborts exactly when the interrupt arrives before the start instant,
and the run then returns the cancelled result with no fetch ever performed
(zero checks, no snapshot). -/
theorem C3_requestStop_in_waiting (mon : Monitor) (env : RunEnv) (b : Bool) (n k : Nat)
    (hh mi : Int) :
    start mon { env with stopDuringWait := b } = start mon env
    ∧ (waitCountdown n (some k) = false ↔ k < n)
    ∧ (parseHM mon.scheduled_time = Except.ok (hh, mi) →
       0 ≤ hh → hh < 24 → 0 ≤ mi → mi < 60 →
       env.now < replaceHM env.now hh mi - 60 * mon.minutes_before →
       env.interruptAt = some k →
       (k : Int) < replaceHM env.now hh mi - 60 * mon.minutes_before - env.now →
       start mon env = Except.ok { status := "cancelled", data := none, changes := []
                                   duration_seconds := 0, total_checks := 0 }) := by
  refine ⟨rfl, waitCountdown_interrupt n k, ?_⟩
  intro hp h0 h1 h2 h3 hlt hintr hk
  have hw : wait_until_start mon env.now env.interruptAt = Except.ok false := by
    simp only [wait_until_start, hp]
    rw [if_neg (show ¬ (hh < 0 ∨ 24 ≤ hh ∨ mi < 0 ∨ 60 ≤ mi) by omega),
      if_neg (show ¬ (replaceHM env.now hh mi - 60 * mon.minutes_before ≤ env.now) by omega),
      hintr]
    exact congrArg Except.ok ((waitCountdown_interrupt _ k).mpr (by omega))
  rw [start, hw]

/-- Witness for C3: an invocation at 11:40 for a 12:00 flight with lead 15
minutes, interrupted five seconds into the countdown, returns the
cancelled result with zero checks. -/
theorem C3_witness :
    start monWait envInterrupted
      = Except.ok { status := "cancelled", data := none, changes := []
                    duration_seconds := 0, total_checks := 0 }
    ∧ (waitCountdown 300 (some 5) = false ↔ 5 < 300) := by
  have h := C3_requestStop_in_waiting monWait envInterrupted true 300 5 12 0
  exact ⟨h.2.2 rfl (by decide) (by decide) (by decide) (by decide) (by decide) rfl (by decide),
    h.2.1⟩

/-- Counterexample to claim C3 as stated: stop() is called while the run
is in the waiting phase, yet the run does not stop — the wait completes,
the baseline fetch is performed (one check), and the run ends with status
timeout rather than any user-cancellation status. -/
theorem C3_counterexample :
    envStopWaitIdle.stopDuringWait = true
    ∧ start monWait envStopWaitIdle
        = Except.ok { status := "timeout", data := some { timestamp := "11:45:00" }
                      changes := [], duration_seconds := 0, total_checks := 1 } :=
  ⟨rfl, rfl⟩

/-- Claim C4 (confirmed): a transport fetch error on the baseline tick is
fatal — the run returns the error status with the error-carrying snapshot
in place of a final snapshot and an empty change log; a fetch error on any
later tick leaves the whole loop state except the counters untouched (the
last-known-good snapshot stays the diff baseline) and the loop continues;
in the scripted run that succeeds on tick 1 with takeoff 10:00, fails on
ticks 2 and 3, and succeeds on tick 4 with takeoff 10:05, the run survives
to tick 4 and reports exactly the change 10:00 to 10:05, diffed against
the tick-1 baseline. -/
theorem C4_fetch_error_policy (mon : Monitor) (env : RunEnv) (e : String)
    (t : TickInput) (rest : List TickInput) (s : LoopState) :
    (wait_until_start mon env.now env.interruptAt = Except.ok true →
     env.baselineFetch = FetchOutcome.netError e →
     start mon env = Except.ok
       { status := "error"
         data := some { timestamp := env.baselineTs, error := some e }
         changes := [], duration_seconds := 0, total_checks := 1 })
    ∧ (s.elapsed < mon.max_duration_seconds →
       (if mon.has_stop_condition then t.stopCond else StopCondResult.noStop)
         = StopCondResult.noStop →
       0 ≤ mon.check_interval → t.interrupted = false → t.stopRequested = false →
       t.fetch = FetchOutcome.netError e →
       runLoop mon (t :: rest) s
         = runLoop mon rest
             { s with check_count := s.check_count + 1
                      elapsed := s.elapsed
                        + min mon.check_interval (mon.max_duration_seconds - s.elapsed) })
    ∧ start monStd envC4 = Except.ok
        { status := "change_detected"
          data := some { timestamp := "12:01:30", takeoff := some ("10:05") }
          changes := [ { field := "takeoff", field_name := "🛫 Takeoff", old := "10:00",
                         new := "10:05", timestamp := "12:01:30" } ]
          duration_seconds := 90, total_checks := 4 } := by
  refine ⟨?_, runLoop_netError_step mon t rest s e, rfl⟩
  intro hw hb
  rw [start, hw, hb, if_pos (by simp [extract_flight_data])]
  rfl

/-- Witness for C4: the baseline-failure branch at a concrete script, and
the error-tick step at a concrete state. -/
theorem C4_witness :
    start monStd envBaselineErr = Except.ok
      { status := "error", data := some { timestamp := "12:00:00", error := some ("boom") }
        changes := [], duration_seconds := 0, total_checks := 1 }
    ∧ runLoop monStd [tickNetErr] st0
        = runLoop monStd []
            { st0 with check_count := st0.check_count + 1
                       elapsed := st0.elapsed
                         + min monStd.check_interval
                             (monStd.max_duration_seconds - st0.elapsed) } := by
  have h := C4_fetch_error_policy monStd envBaselineErr "boom" tickNetErr [] st0
  exact ⟨h.1 rfl rfl, h.2.1 (by decide) rfl (by decide) rfl rfl rfl⟩

/-- Claim C6 (confirmed): with stop-on-change set, a tick whose successful
fetch produces at least one change ends the run as change_detected, with
the changes appended to the log and the fetched snapshot stored as
last-known-good; every non-stopping successful fetch likewise appends its
changes (possibly none) and stores the fetched snapshot regardless; the
scripted source that changes landing from null to 14:32 on tick 3 stops at
tick 3 with exactly that one change in the log. -/
theorem C6_stop_on_change (mon : Monitor) (t : TickInput) (rest : List TickInput)
    (s : LoopState) (d : FlightData) :
    (s.elapsed < mon.max_duration_seconds →
     (if mon.has_stop_condition then t.stopCond else StopCondResult.noStop)
       = StopCondResult.noStop →
     0 ≤ mon.check_interval → t.interrupted = false → t.stopRequested = false →
     t.fetch = FetchOutcome.ok d →
     compare_data_adv (some s.last_data) (extract_flight_data (FetchOutcome.ok d) t.ts) t.ts
       ≠ [] →
     mon.stop_on_change = true →
     runLoop mon (t :: rest) s
       = Except.ok (finishRun "change_detected"
           { last_data := extract_flight_data (FetchOutcome.ok d) t.ts
             changes_log := s.changes_log ++ compare_data_adv (some s.last_data)
               (extract_flight_data (FetchOutcome.ok d) t.ts) t.ts
             check_count := s.check_count + 1
             elapsed := s.elapsed
               + min mon.check_interval (mon.max_duration_seconds - s.elapsed) }))
    ∧ (s.elapsed < mon.max_duration_seconds →
       (if mon.has_stop_condition then t.stopCond else StopCondResult.noStop)
         = StopCondResult.noStop →
       0 ≤ mon.check_interval → t.interrupted = false → t.stopRequested = false →
       t.fetch = FetchOutcome.ok d →
       (compare_data_adv (some s.last_data) (extract_flight_data (FetchOutcome.ok d) t.ts) t.ts
          = []
        ∨ mon.stop_on_change = false) →
       runLoop mon (t :: rest) s
         = runLoop mon rest
             { last_data := extract_flight_data (FetchOutcome.ok d) t.ts
               changes_log := s.changes_log ++ compare_data_adv (some s.last_data)
                 (extract_flight_data (FetchOutcome.ok d) t.ts) t.ts
               check_count := s.check_count + 1
               elapsed := s.elapsed
                 + min mon.check_interval (mon.max_duration_seconds - s.elapsed) })
    ∧ start monStd envC6 = Except.ok
        { status := "change_detected"
          data := some { timestamp := "12:01:00", landing := some ("14:32") }
          changes := [ { field := "landing", field_name := "🛬 Landing", old := "N/A",
                         new := "14:32", timestamp := "12:01:00" } ]
          duration_seconds := 60, total_checks := 3 } :=
  ⟨runLoop_ok_stop_step mon t rest s d, runLoop_ok_continue_step mon t rest s d, rfl⟩

/-- Witness for C6: the stopping step at a concrete tick observing a new
landing time with stop-on-change set, and the non-stopping step for the
same tick with stop-on-change cleared. -/
theorem C6_witness :
    runLoop monStd [tickLand] st0
      = Except.ok (finishRun "change_detected"
          { last_data := extract_flight_data
              (FetchOutcome.ok { landing := some ("14:32") }) tickLand.ts
            changes_log := st0.changes_log ++ compare_data_adv (some st0.last_data)
              (extract_flight_data (FetchOutcome.ok { landing := some ("14:32") })
                tickLand.ts) tickLand.ts
            check_count := st0.check_count + 1
            elapsed := st0.elapsed
              + min monStd.check_interval (monStd.max_duration_seconds - st0.elapsed) })
    ∧ runLoop monNoSoc [tickLand] st0
      = runLoop monNoSoc []
          { last_data := extract_flight_data
              (FetchOutcome.ok { landing := some ("14:32") }) tickLand.ts
            changes_log := st0.changes_log ++ compare_data_adv (some st0.last_data)
              (extract_flight_data (FetchOutcome.ok { landing := some ("14:32") })
                tickLand.ts) tickLand.ts
            check_count := st0.check_count + 1
            elapsed := st0.elapsed
              + min monNoSoc.check_interval (monNoSoc.max_duration_seconds - st0.elapsed) } := by
  have h1 := C6_stop_on_change monStd tickLand [] st0 { landing := some ("14:32") }
  have h2 := C6_stop_on_change monNoSoc tickLand [] st0 { landing := some ("14:32") }
  exact ⟨h1.1 (by decide) rfl (by decide) rfl rfl rfl (by decide) rfl,
    h2.2.1 (by decide) rfl (by decide) rfl rfl rfl (Or.inr rfl)⟩

/-- Claim C7 (corrected): a snapshot from a transport failure carries the
error marker and is indeed never diffed against and never overwrites the
stored state — the error tick advances only the counters; but a snapshot
from an unparseable payload carries only the parse_error marker, which the
loop does not inspect: it is treated as a successful fetch, diffed against
the previous snapshot (vacuously yielding no changes, since all its
compared fields are null) and stored as the new last-known-good
snapshot. -/
theorem C7_error_snapshot_policy (mon : Monitor) (t : TickInput) (rest : List TickInput)
    (s : LoopState) (e ts ts2 : String) (o : FlightData) :
    (extract_flight_data (FetchOutcome.netError e) ts).error = some e
    ∧ (extract_flight_data (FetchOutcome.parseError e) ts).error = none
    ∧ (extract_flight_data (FetchOutcome.parseError e) ts).parse_error = some e
    ∧ compare_data_adv (some o) (extract_flight_data (FetchOutcome.parseError e) ts) ts2 = []
    ∧ (s.elapsed < mon.max_duration_seconds →
       (if mon.has_stop_condition then t.stopCond else StopCondResult.noStop)
         = StopCondResult.noStop →
       0 ≤ mon.check_interval → t.interrupted = false → t.stopRequested = false →
       t.fetch = FetchOutcome.netError e →
       runLoop mon (t :: rest) s
         = runLoop mon rest
             { s with check_count := s.check_count + 1
                      elapsed := s.elapsed
                        + min mon.check_interval (mon.max_duration_seconds - s.elapsed) })
    ∧ (s.elapsed < mon.max_duration_seconds →
       (if mon.has_stop_condition then t.stopCond else StopCondResult.noStop)
         = StopCondResult.noStop →
       0 ≤ mon.check_interval → t.interrupted = false → t.stopRequested = false →
       t.fetch = FetchOutcome.parseError e →
       runLoop mon (t :: rest) s
         = runLoop mon rest
             { last_data := extract_flight_data (FetchOutcome.parseError e) t.ts
               changes_log := s.changes_log
               check_count := s.check_count + 1
               elapsed := s.elapsed
                 + min mon.check_interval (mon.max_duration_seconds - s.elapsed) }) :=
  ⟨rfl, rfl, rfl, rfl,
    runLoop_netError_step mon t rest s e,
    runLoop_parseError_step mon t rest s e⟩

/-- Witness for C7: both step equations at a concrete state, for a
transport-error tick and for a parse-error tick. -/
theorem C7_witness :
    runLoop monNoSoc [tickNetErr] st0
      = runLoop monNoSoc []
          { st0 with check_count := st0.check_count + 1
                     elapsed := st0.elapsed
                       + min monNoSoc.check_interval
                           (monNoSoc.max_duration_seconds - st0.elapsed) }
    ∧ runLoop monNoSoc [tickParse] st0
      = runLoop monNoSoc []
          { last_data := extract_flight_data (FetchOutcome.parseError ("bad")) tickParse.ts
            changes_log := st0.changes_log
            check_count := st0.check_count + 1
            elapsed := st0.elapsed
              + min monNoSoc.check_interval (monNoSoc.max_duration_seconds - st0.elapsed) } := by
  have h1 := C7_error_snapshot_policy monNoSoc tickNetErr [] st0 "boom" "" "" {}
  have h2 := C7_error_snapshot_policy monNoSoc tickParse [] st0 "bad" "" "" {}
  exact ⟨h1.2.2.2.2.1 (by decide) rfl (by decide) rfl rfl rfl,
    h2.2.2.2.2.2 (by decide) rfl (by decide) rfl rfl rfl⟩

/-- Counterexample to claim C7 as stated: the snapshot produced by an
unparseable payload carries a fetch-error marker (parse_error), yet it
does overwrite the last-known-good snapshot — after a run whose only tick
parse-fails, the stored snapshot is the parse-error one — and it is
subsequently diffed against: when the next tick returns data identical to
the tick-1 baseline, the run still reports a spurious change whose old
value is N/A, which could only come from diffing against the all-null
parse-error snapshot instead of the baseline. -/
theorem C7_counterexample :
    (extract_flight_data (FetchOutcome.parseError ("bad json")) ("12:00:30")).parse_error
        = some ("bad json")
    ∧ Except.map RunResult.data (start monNoSoc envC7a)
        = Except.ok (some { timestamp := "12:00:30", parse_error := some ("bad json") })
    ∧ Except.map RunResult.changes (start monNoSoc envC7b)
        = Except.ok [ { field := "takeoff", field_name := "🛫 Takeoff", old := "N/A",
                        new := "10:00", timestamp := "12:01:00" } ] :=
  ⟨rfl, rfl, rfl⟩

/-- Claim C8 (corrected): the constructor performs no validation at all —
it stores the scheduled time and the intervals exactly as given and always
succeeds, for malformed times and non-positive intervals alike; a
malformed scheduled time fails only when start() re-parses it inside the
Scheduled to Waiting transition, and that ValueError escapes start. -/
theorem C8_no_construction_validation (cs st : String) (mb ci : Int) (soc hsc : Bool)
    (mdh : Rat) (env : RunEnv) (e : String) :
    (init cs st mb ci soc hsc mdh).scheduled_time = st
    ∧ (init cs st mb ci soc hsc mdh).check_interval = ci
    ∧ (init cs st mb ci soc hsc mdh).minutes_before = mb
    ∧ (parseHM st = Except.error e →
       start (init cs st mb ci soc hsc mdh) env = Except.error e) := by
  refine ⟨rfl, rfl, rfl, ?_⟩
  intro hp
  have hw : wait_until_start (init cs st mb ci soc hsc mdh) env.now env.interruptAt
      = Except.error e := by
    simp only [wait_until_start, init, hp]
  rw [start, hw]

/-- Witness for C8: constructing with the malformed time banana and a zero
interval succeeds, and start then escapes with the unpack ValueError. -/
theorem C8_witness :
    (init ("pscbj") ("banana") 15 0 true false 4).scheduled_time = "banana"
    ∧ start (init ("pscbj") ("banana") 15 0 true false 4) {}
        = Except.error ("ValueError: not exactly two values to unpack from banana") := by
  have h := C8_no_construction_validation "pscbj" "banana" 15 0 true false 4 {}
    "ValueError: not exactly two values to unpack from banana"
  exact ⟨h.1, h.2.2.2 rfl⟩

/-- Counterexample to claim C8 as stated: the constructor accepts a
malformed scheduled time together with a non-positive interval without any
ConfigurationError — it returns an ordinary monitor storing them — and the
monitor then does enter the Scheduled to Waiting transition, where the
malformed time surfaces as an escaping ValueError instead. -/
theorem C8_counterexample :
    init ("pscbj") ("banana") 15 0 true false 4
      = { callsign := "PSCBJ", url := "https://www.flightaware.com/live/flight/PSCBJ"
          scheduled_time := "banana", minutes_before := 15, check_interval := 0
          stop_on_change := true, has_stop_condition := false
          max_duration_seconds := 14400 }
    ∧ start (init ("pscbj") ("banana") 15 0 true false 4) {}
        = Except.error ("ValueError: not exactly two values to unpack from banana") :=
  ⟨rfl, rfl⟩

/-- Claim C9 (corrected): start() is not exception-safe — a malformed
scheduled time escapes as a ValueError from the wait transition, and an
exception raised by the injected stop condition propagates out of the tick
loop; only for a well-formed, in-range scheduled time, a non-negative
interval and a never-raising stop condition does every run return
normally, with failures represented in the result. -/
theorem C9_exception_escapes (mon : Monitor) (env : RunEnv) (e : String)
    (t : TickInput) (rest : List TickInput) (s : LoopState) (hh mi : Int) :
    (parseHM mon.scheduled_time = Except.error e → start mon env = Except.error e)
    ∧ (s.elapsed < mon.max_duration_seconds →
       (if mon.has_stop_condition then t.stopCond else StopCondResult.noStop)
         = StopCondResult.raises e →
       runLoop mon (t :: rest) s = Except.error e)
    ∧ (parseHM mon.scheduled_time = Except.ok (hh, mi) →
       0 ≤ hh → hh < 24 → 0 ≤ mi → mi < 60 → 0 ≤ mon.check_interval →
       (∀ t2 ∈ env.ticks, ∀ e2,
         (if mon.has_stop_condition then t2.stopCond else StopCondResult.noStop)
           ≠ StopCondResult.raises e2) →
       ∃ r, start mon env = Except.ok r) := by
  refine ⟨?_, runLoop_raise_step mon t rest s e, ?_⟩
  · intro hp
    have hw : wait_until_start mon env.now env.interruptAt = Except.error e := by
      rw [wait_until_start, hp]
    rw [start, hw]
  · intro hp h0 h1 h2 h3 hci hnr
    have hw : ∃ b, wait_until_start mon env.now env.interruptAt = Except.ok b := by
      simp only [wait_until_start, hp]
      rw [if_neg (show ¬ (hh < 0 ∨ 24 ≤ hh ∨ mi < 0 ∨ 60 ≤ mi) by omega)]
      by_cases hle : replaceHM env.now hh mi - 60 * mon.minutes_before ≤ env.now
      · rw [if_pos hle]; exact ⟨true, rfl⟩
      · rw [if_neg hle]; exact ⟨_, rfl⟩
    obtain ⟨b, hw⟩ := hw
    cases b
    · rw [start, hw]; exact ⟨_, rfl⟩
    · rw [start, hw]
      by_cases hbe : (extract_flight_data env.baselineFetch env.baselineTs).error ≠ none
      · rw [if_pos hbe]; exact ⟨_, rfl⟩
      · rw [if_neg hbe]
        exact runLoop_total mon hci env.ticks _ hnr

/-- Witness for C9: the malformed-time escape, the raising stop-condition
escape, and a normal run returning a result. -/
theorem C9_witness :
    start monBanana {} = Except.error ("ValueError: not exactly two values to unpack from banana")
    ∧ runLoop monCond [tickRaise] st0 = Except.error ("boom")
    ∧ (∃ r, start monStd envC6 = Except.ok r) := by
  have h1 := C9_exception_escapes monBanana ({} : RunEnv)
    "ValueError: not exactly two values to unpack from banana" tickRaise [] st0 0 0
  have h2 := C9_exception_escapes monCond ({} : RunEnv) "boom" tickRaise [] st0 0 0
  have h3 := C9_exception_escapes monStd envC6 "unused" tickRaise [] st0 10 0
  exact ⟨h1.1 rfl,
    h2.2.1 (by decide) rfl,
    h3.2.2 rfl (by decide) (by decide) (by decide) (by decide) (by decide)
      (fun t2 ht2 e2 h => by cases h)⟩

/-- Counterexample to claim C9 as stated: an injected external stop
condition that raises on the first tick makes start() itself fail with
that exception — no result is returned, the failure is not represented in
any StopReason. -/
theorem C9_counterexample :
    monCond.has_stop_condition = true
    ∧ start monCond { now := now12, ticks := [tickRaise] } = Except.error ("boom") :=
  ⟨rfl, rfl⟩

end FlightTracker
